import Mathlib

/-!
Verification of the natural-language specification of `rxjs-cache-driver`
against a shallow embedding of `src/index.js`.

The repository ships three successive variants of the `CacheDriver` class in
`src/index.js`:

* variant 1 (lines 1-197): rxjs 5, key-based, `forceRefresh`, per-call option
  merge, detached background refresh on an expired `ttr`;
* variant 2 (lines 198-414): `operations` adapter object plus an `onError`
  hook; storage errors in `_get`/`_set` are caught, reported to `onError`,
  and converted to empty results;
* variant 3 (lines 415-715, the newest): rxjs 6 pipes, id-based, per-call
  options, `setFilter`, gzip compression codec, no error catching in
  `_get`/`_set`, and a synchronous `sourceAndSet` on an expired `ttr`.

Each variant is embedded below.  Asynchronous pipelines are deterministic
given the adapter behaviour, so every operation is embedded as a function
from an environment (adapter read outcome, adapter write outcome, the
source/fallback observable outcome, and the current clock value) to the
notification delivered to the caller together with the trace of adapter
calls performed.  JS strings and Buffers are byte lists; machine-level
library primitives (zlib, JSON) are modelled as concrete injective codecs,
with gzip framing faithful to the three magic-header bytes the driver
sniffs.
-/

/-- JS strings and Buffers are modelled as byte lists. -/
abbrev Bytes := List Nat

/-- Dynamic JS values that can reach the driver: strings, Buffers, numbers,
booleans and null.  These are the cases the driver's truthiness checks and
the codec's `typeof`/`Buffer.isBuffer` checks distinguish. -/
inductive Val where
  | vstr : Bytes → Val
  | vbuf : Bytes → Val
  | vnum : Nat → Val
  | vbool : Bool → Val
  | vnull : Val
deriving DecidableEq, Repr

/-- JS truthiness of a `Val`: empty strings, `0`, `false` and `null` are
falsy; Buffers are always truthy. -/
def truthy : Val → Bool
  | .vstr s => !s.isEmpty
  | .vbuf _ => true
  | .vnum n => n != 0
  | .vbool b => b
  | .vnull => false

/-- Error notifications an observable in the embedding can carry, one per
distinct error site of the source. -/
inductive Err where
  | noNamespace
  | noKey
  | noSource
  | fallbackNotFn
  | valueNotStringOrBuffer
  | adapterGetFail
  | adapterSetFail
  | gunzipFail
  | jsonParseFail
  | typeErrorNull
deriving DecidableEq, Repr

/-- Outcome of a single-value rx pipeline: it emits a value and completes,
errors, or completes without emitting. -/
inductive Notif (α : Type) where
  | val : α → Notif α
  | err : Err → Notif α
  | emp : Notif α
deriving DecidableEq, Repr

/-- Modelled JSON.stringify (external library, not repository code): a
concrete injective serializer producing a non-empty string; `jsonParse` is
its left inverse. -/
def jsonStringify : Val → Bytes
  | .vstr s => 2 :: s
  | .vbuf b => 3 :: b
  | .vnum n => 4 :: [n]
  | .vbool b => 5 :: [if b then 1 else 0]
  | .vnull => [6]

/-- Modelled JSON.parse (external library): left inverse of
`jsonStringify`, `none` on any other input. -/
def jsonParse : Bytes → Option Val
  | 2 :: s => some (.vstr s)
  | 3 :: b => some (.vbuf b)
  | 4 :: [n] => some (.vnum n)
  | 5 :: [0] => some (.vbool false)
  | 5 :: [1] => some (.vbool true)
  | [6] => some .vnull
  | _ => none

/-- The three magic bytes `0x1F 0x8B 0x08` sniffed by `_gunzip`
(src/index.js lines 603-608). -/
def gzipMagic : Bytes := [31, 139, 8]

/-- Modelled zlib.gzip (external library): magic header, then the payload,
then a one-byte checksum.  Injective, and every output starts with the
gzip magic header, as real gzip output does. -/
def gzipBytes (b : Bytes) : Bytes := gzipMagic ++ (b ++ [b.sum % 256])

/-- Modelled zlib.gunzip (external library): left inverse of `gzipBytes`;
fails (`none`) on byte strings that are not well-formed output of
`gzipBytes`, as zlib errors on malformed streams. -/
def gunzipBytes (b : Bytes) : Option Bytes :=
  let rest := b.drop 3
  if b.take 3 = gzipMagic ∧ 1 ≤ rest.length ∧ rest.getLast? = some (rest.dropLast.sum % 256)
  then some rest.dropLast
  else none

/-- The `typeof data.value !== 'string' && !Buffer.isBuffer(data.value)`
test of `_gzip` (src/index.js lines 563-566). -/
def isStrOrBuf : Val → Bool
  | .vstr _ => true
  | .vbuf _ => true
  | _ => false

/-- The underlying bytes of a string or Buffer value. -/
def rawBytes : Val → Bytes
  | .vstr s => s
  | .vbuf b => b
  | _ => []

/-- `Buffer.byteLength(data.value)` for string/Buffer values. -/
def byteLength (v : Val) : Nat := (rawBytes v).length

/-- Dynamic type of the `gzip` option: boolean, number, or anything else
(including absent).  JS numbers may be negative, hence `Int`. -/
inductive GzipOpt where
  | gbool : Bool → GzipOpt
  | gnum : Int → GzipOpt
  | gother
deriving DecidableEq, Repr

/-- Compression decision of `_gzip` (src/index.js lines 570-576):
`typeof gzip === 'boolean'` uses it directly, `typeof gzip === 'number'`
compresses when `Buffer.byteLength(value) > gzip * 1000`, otherwise no
compression. -/
def gzCompress : GzipOpt → Val → Bool
  | .gbool b, _ => b
  | .gnum n, v => (byteLength v : Int) > n * 1000
  | .gother, _ => false

/-- Variant 3 `_gzip` (src/index.js lines 559-595) at the value level: the
record wrapper `{...data, value}` keeps every other field, so the codec
acts on `data.value` alone.  A non-string, non-Buffer value throws
`value must be string or Buffer.` before the policy is consulted. -/
def _gzip (gz : GzipOpt) (v : Val) : Notif Val :=
  if isStrOrBuf v = false then .err .valueNotStringOrBuffer
  else if gzCompress gz v then .val (.vbuf (gzipBytes (rawBytes v)))
  else .val v

/-- Variant 3 `_gunzip` (src/index.js lines 597-626) at the value level:
sniffs `Buffer.isBuffer(value) && value.length >= 3` and the three magic
bytes; if they match, gunzips and emits `value.toString()` (a string);
otherwise passes the value through unchanged. -/
def _gunzip (v : Val) : Notif Val :=
  match v with
  | .vbuf b =>
    if 3 ≤ b.length ∧ b.take 3 = gzipMagic then
      match gunzipBytes b with
      | some out => .val (.vstr out)
      | none => .err .gunzipFail
    else .val (.vbuf b)
  | w => .val w

/-- `_gzip` followed by `_gunzip`: the round trip the spec's
`decode(encode(v)) == v` law is about. -/
def encodeDecode (gz : GzipOpt) (v : Val) : Notif Val :=
  match _gzip gz v with
  | .val w => _gunzip w
  | .err e => .err e
  | .emp => .emp

/-- A cache record as it crosses the storage adapter: the fields of the
persisted `{namespace, id|key, value, createdAt, ttl}` object.  JS object
fields may be absent, hence `Option`. -/
structure Rec where
  nspace : Option Bytes := none
  rid : Option Bytes := none
  value : Option Val := none
  createdAt : Option Nat := none
  rttl : Option Nat := none
deriving DecidableEq, Repr

/-- The `setFilter` option as passed by the caller: a predicate, or any
non-function value (`sourceAndSet` replaces a non-function with the
always-true predicate, src/index.js lines 477-479). -/
inductive SFilter where
  | fn : (Val → Bool) → SFilter
  | notfn : SFilter

/-- Applies the filter the way `sourceAndSet` does: a non-function
`setFilter` is treated as `() => true`. -/
def applyFilter : SFilter → Val → Bool
  | .fn f, v => f v
  | .notfn, _ => true

/-- Options supplied to the variant-3 constructor (besides the four
adapter operations): each may be absent. -/
structure CtorOpts where
  ttr : Option Nat := none
  ttl : Option Nat := none
  gzip : Option GzipOpt := none
  setFilter : Option SFilter := none

/-- The instance options `this.options` of variant 3 after construction. -/
structure InstOpts where
  ttr : Nat
  ttl : Nat
  gzip : GzipOpt
  setFilter : SFilter

/-- Variant-3 constructor option assembly (src/index.js lines 438-443):
`this.options = {...options, setFilter: () => true, ttr: 7200 * 1000,
ttl: 60 * 24 * 60 * 60 * 1000}`.  Spread semantics: keys written after
`...options` win, so the hard-coded `setFilter`, `ttr` and `ttl` always
overwrite any constructor-supplied values; only `gzip` (and other keys not
listed, such as `onError`) survive from the caller's options. -/
def mkOptions (c : CtorOpts) : InstOpts :=
  { gzip := c.gzip.getD .gother
    setFilter := .fn (fun _ => true)
    ttr := 7200 * 1000
    ttl := 60 * 24 * 60 * 60 * 1000 }

/-- Per-call options of variant-3 `get`/`_set`: every key optional,
`refresh` falsy when absent. -/
structure CallOpts where
  ttr : Option Nat := none
  ttl : Option Nat := none
  gzip : Option GzipOpt := none
  setFilter : Option SFilter := none
  refresh : Bool := false

/-- The merged options object a call works with. -/
structure MergedOpts where
  ttr : Nat
  ttl : Nat
  gzip : GzipOpt
  setFilter : SFilter
  refresh : Bool

/-- The per-call merge `options = {...this.options, ...options}`
(src/index.js lines 452-455 and 634-637): per-call keys that are present
win over the instance options. -/
def mergeOpts (inst : InstOpts) (c : CallOpts) : MergedOpts :=
  { ttr := c.ttr.getD inst.ttr
    ttl := c.ttl.getD inst.ttl
    gzip := c.gzip.getD inst.gzip
    setFilter := c.setFilter.getD inst.setFilter
    refresh := c.refresh }

/-- Re-packs a fully merged options object as per-call options; `get`
passes its merged `options` object on to `_set`, whose own re-merge then
leaves every field as merged here. -/
def toCallOpts (o : MergedOpts) : CallOpts :=
  { ttr := some o.ttr
    ttl := some o.ttl
    gzip := some o.gzip
    setFilter := some o.setFilter
    refresh := o.refresh }

/-- Outcome of the storage adapter's read for the key under scrutiny: an
error notification, completion without a value, a `null` payload, or a
stored record. -/
inductive AdapterGet where
  | aerr : Err → AdapterGet
  | aempty : AdapterGet
  | anull : AdapterGet
  | asome : Rec → AdapterGet
deriving DecidableEq, Repr

/-- Environment of one variant-3 call: the clock, the adapter read
outcome, whether the adapter write succeeds, and the observable the
`source` function returns. -/
structure Env where
  now : Nat
  aget : AdapterGet
  asetOk : Bool
  src : Notif Val

/-- Variant-3 `_gunzip` applied to a stored record (src/index.js lines
597-626): `{value} = data`; an absent or non-Buffer value passes through,
and on decompression the other record fields are kept via
`{...data, value: value.toString()}`. -/
def _gunzipRec (r : Rec) : Notif Rec :=
  match r.value with
  | none => .val r
  | some v =>
    match _gunzip v with
    | .val w => .val { r with value := some w }
    | .err e => .err e
    | .emp => .emp

/-- Modelled JSON.parse as applied by `_get` to the stored `value` field
(external library): Node coerces a Buffer argument to its string before
parsing; any other payload type fails to parse. -/
def jsonParseVal : Val → Option Val
  | .vstr s => jsonParse s
  | .vbuf b => jsonParse b
  | _ => none

/-- Variant-3 `_get` (src/index.js lines 523-557): validates `namespace`,
reads the adapter; `!response` becomes `{}`, gunzips, then JSON-parses a
truthy `value` field; `defaultIfEmpty({})`.  There is no error handler:
adapter errors, gunzip errors and parse errors all propagate. -/
def _get (env : Env) (ns id : Option Bytes) : Notif Rec :=
  if ns.isNone then .err .noNamespace
  else
    match env.aget with
    | .aerr e => .err e
    | .aempty => .val {}
    | .anull => .val {}
    | .asome r =>
      match _gunzipRec r with
      | .err e => .err e
      | .emp => .emp
      | .val r2 =>
        match r2.value with
        | none => .val r2
        | some v =>
          if truthy v then
            match jsonParseVal v with
            | some pv => .val { r2 with value := some pv }
            | none => .err .jsonParseFail
          else .val r2

/-- Variant-3 `_set` (src/index.js lines 628-662): re-merges options,
validates `namespace` (not `id`), treats a falsy `value` as an empty
no-op, serializes `value` with JSON.stringify, compresses via `_gzip`
(which reads the INSTANCE gzip option `this.options.gzip`, line 570-573),
then calls the adapter's `set` with `{...response, createdAt: Date.now(),
ttl: Math.floor((Date.now() + options.ttl) / 1000)}`.  Adapter write
errors are not caught.  Returns the notification together with the list
of records passed to the adapter's `set`. -/
def _set (inst : InstOpts) (callO : CallOpts) (env : Env) (ns id : Option Bytes)
    (value : Option Val) : Notif Unit × List Rec :=
  let o := mergeOpts inst callO
  if ns.isNone then (.err .noNamespace, [])
  else
    match value with
    | none => (.emp, [])
    | some v =>
      if truthy v = false then (.emp, [])
      else
        match _gzip inst.gzip (.vstr (jsonStringify v)) with
        | .err e => (.err e, [])
        | .emp => (.emp, [])
        | .val gv =>
          let outRec : Rec :=
            { nspace := ns, rid := id, value := some gv,
              createdAt := some env.now,
              rttl := some ((env.now + o.ttl) / 1000) }
          if env.asetOk then (.val (), [outRec]) else (.err .adapterSetFail, [outRec])

/-- Variant-3 `sourceAndSet` closure (src/index.js lines 473-491): runs
the source; if the (defaulted) `setFilter` accepts the response, pipes it
through `_set` and `mapTo`s the response back — so an empty `_set` yields
no emission and a failed `_set` propagates its error; a rejected response
is emitted without any write. -/
def sourceAndSet (inst : InstOpts) (o : MergedOpts) (env : Env) (ns id : Option Bytes) :
    Notif Val × List Rec :=
  match env.src with
  | .err e => (.err e, [])
  | .emp => (.emp, [])
  | .val v =>
    if applyFilter o.setFilter v then
      match _set inst (toCallOpts o) env ns id (some v) with
      | (.val _, calls) => (.val v, calls)
      | (.emp, calls) => (.emp, calls)
      | (.err e, calls) => (.err e, calls)
    else (.val v, [])

/-- Observable outcome of a variant-3 `get` call plus the traces of the
adapter and source invocations it performs. -/
structure GetOut where
  result : Notif Val
  setCalls : List Rec
  srcCalls : Nat
  getCalls : Nat
deriving DecidableEq, Repr

/-- Variant-3 `get` (src/index.js lines 446-521): merges options,
validates `namespace` and that `source` is a function (`id` is NOT
validated), honours `options.refresh`, reads through `_get`, destructures
`{value = null, createdAt = 0}`, runs `sourceAndSet` on a missing/falsy
value, computes `expired = Date.now() - createdAt >= options.ttr` and on
expiry RETURNS `sourceAndSet(args)` — the caller waits on the source and
receives its value; only a fresh hit emits the cached value. -/
def CacheDriver.get (inst : InstOpts) (callO : CallOpts) (env : Env) (ns id : Option Bytes)
    (hasSource : Bool) : GetOut :=
  let o := mergeOpts inst callO
  if ns.isNone then ⟨.err .noNamespace, [], 0, 0⟩
  else if hasSource = false then ⟨.err .noSource, [], 0, 0⟩
  else if o.refresh then
    let fg := sourceAndSet inst o env ns id
    ⟨fg.1, fg.2, 1, 0⟩
  else
    match _get env ns id with
    | .err e => ⟨.err e, [], 0, 1⟩
    | .emp => ⟨.emp, [], 0, 1⟩
    | .val r =>
      match r.value with
      | none =>
        let fg := sourceAndSet inst o env ns id
        ⟨fg.1, fg.2, 1, 1⟩
      | some v =>
        if truthy v = false then
          let fg := sourceAndSet inst o env ns id
          ⟨fg.1, fg.2, 1, 1⟩
        else if (env.now : Int) - (r.createdAt.getD 0 : Nat) ≥ (o.ttr : Int) then
          let fg := sourceAndSet inst o env ns id
          ⟨fg.1, fg.2, 1, 1⟩
        else ⟨.val v, [], 0, 1⟩

/-- Variant-3 `markToRefresh` (src/index.js lines 680-702): validates
`namespace`, reads the raw record straight from the adapter, mutates
`response.createdAt = 0` leaving every other field untouched, and writes
the record back through the adapter's `set`.  A `null` response makes the
property assignment throw; an empty read completes without writing. -/
def markToRefresh (env : Env) (ns id : Option Bytes) : Notif Unit × List Rec :=
  if ns.isNone then (.err .noNamespace, [])
  else
    match env.aget with
    | .aerr e => (.err e, [])
    | .aempty => (.emp, [])
    | .anull => (.err .typeErrorNull, [])
    | .asome r =>
      let r2 := { r with createdAt := some 0 }
      if env.asetOk then (.val (), [r2]) else (.err .adapterSetFail, [r2])

/-- Variant-1 instance options: `Object.assign({ttr: 7200}, options)`
(src/index.js lines 23-25) — here the caller's options DO override the
default; `ttr` is in seconds. -/
structure V1Opts where
  ttr : Nat

/-- Variant-1 constructor option assembly: the default `ttr` of 7200
seconds is overridden by a constructor-supplied value. -/
def v1mkOptions (cttr : Option Nat) : V1Opts :=
  { ttr := cttr.getD 7200 }

/-- Variant-1 per-call options merged by
`Object.assign({}, this.options, options)` (src/index.js line 34). -/
structure V1CallOpts where
  ttr : Option Nat := none
  forceRefresh : Bool := false

/-- Variant-1 merged options. -/
structure V1MergedOpts where
  ttr : Nat
  forceRefresh : Bool

/-- Variant-1 per-call option merge. -/
def v1merge (inst : V1Opts) (c : V1CallOpts) : V1MergedOpts :=
  { ttr := c.ttr.getD inst.ttr, forceRefresh := c.forceRefresh }

/-- Environment of one variant-1 call: clock, adapter read outcome for the
key, and the observable the fallback returns. -/
structure V1Env where
  now : Nat
  aget : AdapterGet
  fallback : Notif Val

/-- Outcome of a variant-1 `get`: the caller's notification, the
foreground source/write trace, and the detached background refresh trace
spawned via `.publish().connect()` on a stale hit. -/
structure V1Out where
  result : Notif Val
  fgSrcCalls : Nat
  fgSetCalls : List Rec
  bgSrcCalls : Nat
  bgSetCalls : List Rec
  getCalls : Nat
deriving DecidableEq, Repr

/-- The adapter `set` trace of variant-1 `_set` (src/index.js lines
117-142): validated elsewhere, a falsy value writes nothing, otherwise one
`set(namespace, key, JSON.stringify({namespace, key, value, createdAt:
Date.now()}))` call, recorded here by its record fields. -/
def v1setTrace (env : V1Env) (ns key : Option Bytes) (v : Val) : List Rec :=
  if truthy v then
    [{ nspace := ns, rid := key, value := some v, createdAt := some env.now }]
  else []

/-- Variant-1 `fallbackAndSet` closure (src/index.js lines 54-59):
`fallback(args).do(response => _set(response).publish().connect())` — the
emitted value is the fallback's, and the write is itself detached. -/
def v1fallbackAndSet (env : V1Env) (ns key : Option Bytes) : Notif Val × List Rec :=
  match env.fallback with
  | .val v => (.val v, v1setTrace env ns key v)
  | .err e => (.err e, [])
  | .emp => (.emp, [])

/-- Variant-1 `_get` (src/index.js lines 92-115): validates namespace and
key, `!response` becomes `{}`, a string response is JSON-parsed (modelled
at the record level), `defaultIfEmpty({})`; no error handling. -/
def v1_get (env : V1Env) (ns key : Option Bytes) : Notif Rec :=
  if ns.isNone then .err .noNamespace
  else if key.isNone then .err .noKey
  else
    match env.aget with
    | .aerr e => .err e
    | .aempty => .val {}
    | .anull => .val {}
    | .asome r => .val r

/-- Variant-1 `get` (src/index.js lines 28-90): validates namespace, key
and that the fallback is a function; honours `forceRefresh`; a missing or
falsy cached value runs `fallbackAndSet` in the foreground; on
`Date.now() - createdAt >= ttr * 1000` it runs `fallbackAndSet(args)
.publish().connect()` DETACHED and still returns `Observable.of(value)` —
the caller gets the cached value immediately. -/
def v1get (inst : V1Opts) (callO : V1CallOpts) (env : V1Env) (ns key : Option Bytes)
    (hasFallback : Bool) : V1Out :=
  let o := v1merge inst callO
  if ns.isNone then ⟨.err .noNamespace, 0, [], 0, [], 0⟩
  else if key.isNone then ⟨.err .noKey, 0, [], 0, [], 0⟩
  else if hasFallback = false then ⟨.err .fallbackNotFn, 0, [], 0, [], 0⟩
  else if o.forceRefresh then
    let fg := v1fallbackAndSet env ns key
    ⟨fg.1, 1, fg.2, 0, [], 0⟩
  else
    match v1_get env ns key with
    | .err e => ⟨.err e, 0, [], 0, [], 1⟩
    | .emp => ⟨.emp, 0, [], 0, [], 1⟩
    | .val r =>
      match r.value with
      | none =>
        let fg := v1fallbackAndSet env ns key
        ⟨fg.1, 1, fg.2, 0, [], 1⟩
      | some v =>
        if truthy v = false then
          let fg := v1fallbackAndSet env ns key
          ⟨fg.1, 1, fg.2, 0, [], 1⟩
        else if (env.now : Int) - (r.createdAt.getD 0 : Nat) ≥ (o.ttr : Int) * 1000 then
          let bg := v1fallbackAndSet env ns key
          ⟨.val v, 0, [], 1, bg.2, 1⟩
        else ⟨.val v, 0, [], 0, [], 1⟩

/-- Environment of one variant-2 call: clock, adapter read outcome and the
fallback observable (already an Observable in variant 2). -/
structure V2Env where
  now : Nat
  aget : AdapterGet
  fallback : Notif Val

/-- Variant-2 `_get` (src/index.js lines 295-325): validates namespace and
key; `!response` becomes `{}`, otherwise the stored string is JSON-parsed
(modelled at the record level); `.catch` reports a thrown storage error to
`this.options.onError` WHEN that hook is a function and converts the error
to `Observable.of({})`; `defaultIfEmpty({})`.  Returns the record
notification together with the number of `onError` invocations. -/
def v2_get (hasOnError : Bool) (env : V2Env) (ns key : Option Bytes) :
    Notif Rec × Nat :=
  if ns.isNone then (.err .noNamespace, 0)
  else if key.isNone then (.err .noKey, 0)
  else
    match env.aget with
    | .aerr _ => (.val {}, if hasOnError then 1 else 0)
    | .aempty => (.val {}, 0)
    | .anull => (.val {}, 0)
    | .asome r => (.val r, 0)

/-- Outcome of a variant-2 `get`: caller's notification, foreground and
detached background traces, and `onError` invocations. -/
structure V2Out where
  result : Notif Val
  fgSrcCalls : Nat
  fgSetCalls : List Rec
  bgSrcCalls : Nat
  bgSetCalls : List Rec
  onErrorCalls : Nat
deriving DecidableEq, Repr

/-- The adapter `set` trace of variant-2 `_set` (src/index.js lines
327-359), recorded by record fields like `v1setTrace`. -/
def v2setTrace (env : V2Env) (ns key : Option Bytes) (v : Val) : List Rec :=
  if truthy v then
    [{ nspace := ns, rid := key, value := some v, createdAt := some env.now }]
  else []

/-- Variant-2 `get` (src/index.js lines 229-293): validates namespace, key
and that the fallback is subscribable; on a missing value subscribes the
replayed fallback and detaches the write; on `Date.now() - createdAt >=
this.options.ttr * 1000` (instance option, seconds) spawns the detached
`fallbackReplay.mergeMap(_set).publish().connect()` and still returns the
cached value.  A storage read error was already converted to `{}` by
`_get`, so it lands in the missing-value branch and the source is
invoked. -/
def v2get (hasOnError : Bool) (instTtr : Nat) (env : V2Env) (ns key : Option Bytes)
    (hasFallback : Bool) : V2Out :=
  if ns.isNone then ⟨.err .noNamespace, 0, [], 0, [], 0⟩
  else if key.isNone then ⟨.err .noKey, 0, [], 0, [], 0⟩
  else if hasFallback = false then ⟨.err .fallbackNotFn, 0, [], 0, [], 0⟩
  else
    match v2_get hasOnError env ns key with
    | (.err e, oe) => ⟨.err e, 0, [], 0, [], oe⟩
    | (.emp, oe) => ⟨.emp, 0, [], 0, [], oe⟩
    | (.val r, oe) =>
      match r.value with
      | none =>
        match env.fallback with
        | .val v => ⟨.val v, 1, v2setTrace env ns key v, 0, [], oe⟩
        | .err e => ⟨.err e, 1, [], 0, [], oe⟩
        | .emp => ⟨.emp, 1, [], 0, [], oe⟩
      | some v =>
        if truthy v = false then
          match env.fallback with
          | .val w => ⟨.val w, 1, v2setTrace env ns key w, 0, [], oe⟩
          | .err e => ⟨.err e, 1, [], 0, [], oe⟩
          | .emp => ⟨.emp, 1, [], 0, [], oe⟩
        else if (env.now : Int) - (r.createdAt.getD 0 : Nat) ≥ (instTtr : Int) * 1000 then
          match env.fallback with
          | .val w => ⟨.val v, 0, [], 1, v2setTrace env ns key w, oe⟩
          | _ => ⟨.val v, 0, [], 1, [], oe⟩
        else ⟨.val v, 0, [], 0, [], oe⟩

/-- Shared concrete namespace argument for witnesses and counterexamples. -/
def ns0 : Option Bytes := some [1]

/-- Shared concrete id argument for witnesses and counterexamples. -/
def id0 : Option Bytes := some [2]

/-- Shared concrete cached value for witnesses and counterexamples. -/
def cachedV : Val := .vstr [10]

/-- Shared concrete source value for witnesses and counterexamples. -/
def freshV : Val := .vstr [20]

/-- Instance options of a driver constructed with no optional settings. -/
def inst0 : InstOpts := mkOptions {}

theorem gzipBytes_take3 (b : Bytes) : (gzipBytes b).take 3 = gzipMagic := by
  simp [gzipBytes, gzipMagic]

theorem gunzipBytes_gzipBytes (b : Bytes) : gunzipBytes (gzipBytes b) = some b := by
  simp [gunzipBytes, gzipBytes, gzipMagic, List.getLast?_concat, List.dropLast_concat]

theorem jsonParse_jsonStringify (v : Val) : jsonParse (jsonStringify v) = some v := by
  cases v with
  | vstr s => rfl
  | vbuf b => rfl
  | vnum n => rfl
  | vbool b => cases b <;> rfl
  | vnull => rfl

theorem truthy_jsonStringify (v : Val) : truthy (.vstr (jsonStringify v)) = true := by
  cases v <;> simp [jsonStringify, truthy]

theorem jsonStringify_ne_nil (v : Val) : jsonStringify v ≠ [] := by
  cases v <;> simp [jsonStringify]

theorem _gunzip_gzipBytes (b : Bytes) : _gunzip (.vbuf (gzipBytes b)) = .val (.vstr b) := by
  have hlen : 3 ≤ (gzipBytes b).length := by simp [gzipBytes, gzipMagic]
  have htake := gzipBytes_take3 b
  simp [_gunzip, hlen, htake, gunzipBytes_gzipBytes]

/-- Claim C4, counterexample: a Buffer that itself begins with the gzip
magic header, stored with compression disabled, does not round-trip:
decode mis-sniffs it as compressed and fails (zlib errors on the
malformed stream), so `decode(encode(v)) ≠ v`. -/
theorem c4_counterexample :
    encodeDecode .gother (.vbuf gzipMagic) = .err .gunzipFail ∧
    encodeDecode .gother (.vbuf gzipMagic) ≠ .val (.vbuf gzipMagic) := by
  decide

/-- Claim C4 (amended): `decode(encode(v)) = v` for every string `v` under
every compression policy, and for every Buffer `v` that the policy leaves
uncompressed and that does not itself begin with the gzip magic header; a
compressed Buffer decodes to the STRING of its bytes (`value.toString()`),
not to the Buffer.  Decode is policy-free and self-describing: it takes no
policy argument, passes any buffer not starting with `0x1F 0x8B 0x08`
through unchanged, and passes every non-Buffer value through unchanged. -/
theorem c4_roundtrip (gz : GzipOpt) (s b : Bytes) :
    encodeDecode gz (.vstr s) = .val (.vstr s)
    ∧ (gzCompress gz (.vbuf b) = false → b.take 3 ≠ gzipMagic →
        encodeDecode gz (.vbuf b) = .val (.vbuf b))
    ∧ (gzCompress gz (.vbuf b) = true → encodeDecode gz (.vbuf b) = .val (.vstr b))
    ∧ (b.take 3 ≠ gzipMagic → _gunzip (.vbuf b) = .val (.vbuf b))
    ∧ _gunzip (.vstr s) = .val (.vstr s) := by
  refine ⟨?_, ?_, ?_, ?_, rfl⟩
  · cases hc : gzCompress gz (.vstr s) with
    | false => simp [encodeDecode, _gzip, isStrOrBuf, hc, _gunzip]
    | true => simp [encodeDecode, _gzip, isStrOrBuf, hc, rawBytes, _gunzip_gzipBytes]
  · intro h1 h2
    simp [encodeDecode, _gzip, isStrOrBuf, h1, _gunzip, h2]
  · intro h
    simp [encodeDecode, _gzip, isStrOrBuf, h, _gunzip_gzipBytes, rawBytes]
  · intro h
    simp [_gunzip, h]

/-- Claim C4, witness: the round-trip theorem applied at concrete inputs —
a compressed string round-trips, a compressed Buffer comes back as the
string of its bytes, an uncompressed non-magic Buffer round-trips. -/
theorem c4_witness :
    encodeDecode (.gbool true) (.vstr [7]) = .val (.vstr [7])
    ∧ encodeDecode (.gbool true) (.vbuf [7]) = .val (.vstr [7])
    ∧ encodeDecode (.gbool false) (.vbuf [7]) = .val (.vbuf [7]) :=
  ⟨(c4_roundtrip (.gbool true) [7] [7]).1,
   (c4_roundtrip (.gbool true) [7] [7]).2.2.1 (by decide),
   (c4_roundtrip (.gbool false) [7] [7]).2.1 (by decide) (by decide)⟩

/-- Claim C5: with a numeric `gzip` option `n`, `_gzip` compresses a
string/Buffer value exactly when its byte length strictly exceeds
`n * 1000` (so a payload of exactly `n * 1000` bytes stays uncompressed
and one byte more is compressed, and the compressed payload carries the
gzip magic header); `gzip === true` always compresses, and `false` or a
non-boolean non-number `gzip` never compresses. -/
theorem c5_threshold (n : Int) (v : Val) (h : isStrOrBuf v = true) :
    (_gzip (.gnum n) v =
      if (byteLength v : Int) > n * 1000 then .val (.vbuf (gzipBytes (rawBytes v)))
      else .val v)
    ∧ _gzip (.gbool true) v = .val (.vbuf (gzipBytes (rawBytes v)))
    ∧ _gzip (.gbool false) v = .val v
    ∧ _gzip .gother v = .val v
    ∧ (gzipBytes (rawBytes v)).take 3 = gzipMagic := by
  refine ⟨?_, ?_, ?_, ?_, gzipBytes_take3 _⟩ <;>
    simp [_gzip, h, gzCompress]

/-- Claim C5, witness: the threshold theorem applied at `n = 0` with a
0-byte payload (exactly at the threshold, not compressed) and a 1-byte
payload (one over, compressed), plus the always/never policies. -/
theorem c5_witness :
    _gzip (.gnum 0) (.vstr []) = .val (.vstr [])
    ∧ _gzip (.gnum 0) (.vstr [7]) = .val (.vbuf (gzipBytes [7]))
    ∧ _gzip (.gbool true) (.vstr []) = .val (.vbuf (gzipBytes []))
    ∧ _gzip .gother (.vstr [7]) = .val (.vstr [7]) := by
  have h0 := c5_threshold 0 (.vstr []) (by decide)
  have h1 := c5_threshold 0 (.vstr [7]) (by decide)
  refine ⟨?_, ?_, ?_, ?_⟩
  · rw [h0.1]
    norm_num [byteLength, rawBytes]
  · rw [h1.1]
    norm_num [byteLength, rawBytes]
  · exact h0.2.1
  · exact h1.2.2.2.1

/-- Claim C10: `_gzip` raises the `value must be string or Buffer.`
validation error for every value that is neither a string nor a Buffer,
under every compression policy (the type check precedes the policy
branch), and never raises it for a string or Buffer value. -/
theorem c10_gzip_validation (gz : GzipOpt) (v : Val) :
    (isStrOrBuf v = false → _gzip gz v = .err .valueNotStringOrBuffer)
    ∧ (isStrOrBuf v = true → _gzip gz v ≠ .err .valueNotStringOrBuffer) := by
  constructor
  · intro h
    simp [_gzip, h]
  · intro h
    cases hc : gzCompress gz v <;> simp [_gzip, h, hc]

/-- Claim C10, witness: the validation theorem applied to a number and to
null under never-compress policies (error raised anyway), and to a string
(no validation error). -/
theorem c10_witness :
    _gzip (.gbool false) (.vnum 5) = .err .valueNotStringOrBuffer
    ∧ _gzip .gother .vnull = .err .valueNotStringOrBuffer
    ∧ _gzip (.gbool false) (.vstr []) ≠ .err .valueNotStringOrBuffer :=
  ⟨(c10_gzip_validation (.gbool false) (.vnum 5)).1 (by decide),
   (c10_gzip_validation .gother .vnull).1 (by decide),
   (c10_gzip_validation (.gbool false) (.vstr [])).2 (by decide)⟩

/-- Shared environment with an empty store and a succeeding adapter. -/
def env0 : Env := ⟨1000, .aempty, true, .emp⟩

/-- The value `_set` hands to the adapter for a truthy input value: the
JSON-serialized string, gzipped when the INSTANCE gzip policy says so. -/
def setPayload (inst : InstOpts) (v : Val) : Val :=
  if gzCompress inst.gzip (.vstr (jsonStringify v)) then .vbuf (gzipBytes (jsonStringify v))
  else .vstr (jsonStringify v)

theorem truthy_setPayload (inst : InstOpts) (v : Val) :
    truthy (setPayload inst v) = true := by
  unfold setPayload
  split
  · rfl
  · exact truthy_jsonStringify v

theorem _set_truthy_eq (inst : InstOpts) (callO : CallOpts) (env : Env)
    (ns id : Option Bytes) (v : Val) (hns : ns.isNone = false) (ht : truthy v = true) :
    _set inst callO env ns id (some v) =
      ((if env.asetOk then Notif.val () else .err .adapterSetFail),
       [{ nspace := ns, rid := id, value := some (setPayload inst v),
          createdAt := some env.now,
          rttl := some ((env.now + (mergeOpts inst callO).ttl) / 1000) }]) := by
  unfold _set
  simp only [hns, Bool.false_eq_true, if_false, ht]
  by_cases hg : gzCompress inst.gzip (.vstr (jsonStringify v)) <;>
    by_cases ha : env.asetOk <;>
      simp [_gzip, isStrOrBuf, hg, ha, setPayload, rawBytes]

/-- Claim C9: a `_set` call with a valid namespace and a falsy or absent
value is a no-op — it completes empty, without error and without any
adapter `set` invocation; every record `_set` does pass to the adapter
carries a present, truthy value (the non-empty JSON serialization,
possibly gzipped), and `markToRefresh` preserves that: rewriting a stored
record whose value is present and truthy passes a record whose value is
the same, hence a record with an empty/absent value is never persisted. -/
theorem c9_set_empty_noop (inst : InstOpts) (callO : CallOpts) (env : Env)
    (ns id : Option Bytes) (v : Val) (w : Option Val) (r r2 : Rec)
    (hns : ns.isNone = false) :
    _set inst callO env ns id none = (.emp, [])
    ∧ (truthy v = false → _set inst callO env ns id (some v) = (.emp, []))
    ∧ (r ∈ (_set inst callO env ns id w).2 →
        ∃ v2, r.value = some v2 ∧ truthy v2 = true)
    ∧ (env.aget = .asome r → (∃ v2, r.value = some v2 ∧ truthy v2 = true) →
        r2 ∈ (markToRefresh env ns id).2 →
        ∃ v3, r2.value = some v3 ∧ truthy v3 = true) := by
  refine ⟨by simp [_set, hns], fun hv => by simp [_set, hns, hv], ?_, ?_⟩
  · intro hr
    cases w with
    | none => simp [_set, hns] at hr
    | some v2 =>
      cases ht : truthy v2 with
      | true =>
        rw [_set_truthy_eq inst callO env ns id v2 hns ht] at hr
        simp at hr
        exact ⟨setPayload inst v2, by rw [hr], truthy_setPayload inst v2⟩
      | false => simp [_set, hns, ht] at hr
  · intro hget hval hr
    obtain ⟨v2, hv2, htv2⟩ := hval
    unfold markToRefresh at hr
    simp [hns, hget] at hr
    by_cases ha : env.asetOk <;> simp [ha] at hr <;>
      exact ⟨v2, by rw [hr]; exact hv2, htv2⟩

/-- Claim C9, witness: the no-op theorem applied at an absent value and at
a falsy (empty-string) value. -/
theorem c9_witness :
    _set inst0 {} env0 ns0 id0 none = (.emp, [])
    ∧ _set inst0 {} env0 ns0 id0 (some (.vstr [])) = (.emp, []) :=
  have h := c9_set_empty_noop inst0 {} env0 ns0 id0 (.vstr []) none {} {} (by decide)
  ⟨h.1, h.2.1 (by decide)⟩

/-- Claim C2, counterexample: in the newest variant a thrown storage read
error does NOT normalize to the empty record: `_get` propagates it (there
is no catch), and the enclosing `get` errors without ever invoking the
source. -/
theorem c2_counterexample :
    _get ⟨1000, .aerr .adapterGetFail, true, .val freshV⟩ ns0 id0 = .err .adapterGetFail
    ∧ _get ⟨1000, .aerr .adapterGetFail, true, .val freshV⟩ ns0 id0 ≠ .val {}
    ∧ CacheDriver.get inst0 {} ⟨1000, .aerr .adapterGetFail, true, .val freshV⟩ ns0 id0 true
        = ⟨.err .adapterGetFail, [], 0, 1⟩ := by
  decide

/-- Claim C2 (amended): an absent record and a null payload normalize to
the empty record in every variant; a thrown storage read error normalizes
to `{}` (and is additionally reported when the `onError` hook is
configured) only in the `onError` variant, where `get` then falls through
to invoking the source; in the newest variant `_get` has no error handler,
so the error propagates to `get`'s caller and the source is not
invoked. -/
theorem c2_read_error (e : Err) (ns id key : Option Bytes)
    (inst : InstOpts) (callO : CallOpts)
    (hns : ns.isNone = false) (hkey : key.isNone = false)
    (hrefresh : callO.refresh = false) :
    (∀ env : Env, env.aget = .aerr e →
      _get env ns id = .err e
      ∧ CacheDriver.get inst callO env ns id true = ⟨.err e, [], 0, 1⟩)
    ∧ (∀ env : Env, env.aget = .aempty ∨ env.aget = .anull → _get env ns id = .val {})
    ∧ (∀ env : V1Env, env.aget = .aempty ∨ env.aget = .anull → v1_get env ns key = .val {})
    ∧ (∀ (b : Bool) (env : V2Env), env.aget = .aempty ∨ env.aget = .anull →
        v2_get b env ns key = (.val {}, 0))
    ∧ (∀ (b : Bool) (env : V2Env), env.aget = .aerr e →
        v2_get b env ns key = (.val {}, if b then 1 else 0))
    ∧ (∀ (b : Bool) (t : Nat) (env : V2Env) (v : Val), env.aget = .aerr e →
        env.fallback = .val v →
        v2get b t env ns key true =
          ⟨.val v, 1, v2setTrace env ns key v, 0, [], if b then 1 else 0⟩) := by
  refine ⟨?_, ?_, ?_, ?_, ?_, ?_⟩
  · intro env he
    exact ⟨by simp [_get, hns, he],
           by simp [CacheDriver.get, hns, hrefresh, mergeOpts, _get, he]⟩
  · rintro env (he | he) <;> simp [_get, hns, he]
  · rintro env (he | he) <;> simp [v1_get, hns, hkey, he]
  · rintro b env (he | he) <;> simp [v2_get, hns, hkey, he]
  · intro b env he
    simp [v2_get, hns, hkey, he]
  · intro b t env v he hf
    simp [v2get, hns, hkey, v2_get, he, hf]

/-- Claim C2, witness: the amended theorem applied at concrete adapters —
absent and null reads normalize to the empty record in all three
variants; a thrown read error propagates in the newest variant, while the
`onError` variant normalizes it to the empty record, notifies the hook
once, and its `get` still falls through to the fallback's value. -/
theorem c2_witness :
    _get ⟨5, .aerr .adapterGetFail, true, .emp⟩ ns0 id0 = .err .adapterGetFail
    ∧ _get ⟨5, .aempty, true, .emp⟩ ns0 id0 = .val {}
    ∧ _get ⟨5, .anull, true, .emp⟩ ns0 id0 = .val {}
    ∧ v1_get ⟨5, .aempty, .emp⟩ ns0 id0 = .val {}
    ∧ v1_get ⟨5, .anull, .emp⟩ ns0 id0 = .val {}
    ∧ v2_get true ⟨5, .aempty, .emp⟩ ns0 id0 = (.val {}, 0)
    ∧ v2_get true ⟨5, .anull, .emp⟩ ns0 id0 = (.val {}, 0)
    ∧ v2_get true ⟨5, .aerr .adapterGetFail, .val freshV⟩ ns0 id0 = (.val {}, 1)
    ∧ v2get true 7200 ⟨5, .aerr .adapterGetFail, .val freshV⟩ ns0 id0 true
        = ⟨.val freshV, 1,
           v2setTrace ⟨5, .aerr .adapterGetFail, .val freshV⟩ ns0 id0 freshV, 0, [], 1⟩ :=
  have h := c2_read_error .adapterGetFail ns0 id0 id0 inst0 {} (by decide) (by decide) rfl
  ⟨(h.1 _ rfl).1,
   h.2.1 _ (Or.inl rfl),
   h.2.1 _ (Or.inr rfl),
   h.2.2.1 _ (Or.inl rfl),
   h.2.2.1 _ (Or.inr rfl),
   h.2.2.2.1 true _ (Or.inl rfl),
   h.2.2.2.1 true _ (Or.inr rfl),
   by simpa using h.2.2.2.2.1 true _ rfl,
   by simpa using h.2.2.2.2.2 true 7200 _ freshV rfl rfl⟩

/-- Claim C3, counterexample: constructor-supplied `ttr`, `ttl` and
`setFilter` do not govern later calls — the hard-coded defaults are spread
after the caller's options and overwrite them (`ttr` stays `7200000`, the
everything-rejecting constructor `setFilter` is replaced by always-true);
and a per-call `gzip: true` does not make the call's write compressed: the
written value is the plain JSON string because `_gzip` consults only the
instance-level option. -/
theorem c3_counterexample :
    (mkOptions { ttr := some 1, ttl := some 2, setFilter := some (.fn (fun _ => false)) }).ttr
      = 7200 * 1000
    ∧ (mkOptions { ttr := some 1, ttl := some 2, setFilter := some (.fn (fun _ => false)) }).ttr ≠ 1
    ∧ (mkOptions { ttr := some 1, ttl := some 2, setFilter := some (.fn (fun _ => false)) }).ttl
        = 60 * 24 * 60 * 60 * 1000
    ∧ applyFilter
        (mkOptions { ttr := some 1, ttl := some 2, setFilter := some (.fn (fun _ => false)) }).setFilter
        (.vnum 0) = true
    ∧ (_set inst0 { gzip := some (.gbool true) } ⟨1000, .aempty, true, .emp⟩ ns0 id0
        (some freshV)).2
        = [{ nspace := ns0, rid := id0, value := some (.vstr (jsonStringify freshV)),
             createdAt := some 1000, rttl := some ((1000 + 60 * 24 * 60 * 60 * 1000) / 1000) }] := by
  refine ⟨rfl, by decide, rfl, rfl, by decide⟩

/-- Claim C3 (amended): the effective per-call configuration is the
per-call options merged over the instance options, and `ttr`, `ttl`,
`setFilter` and `refresh` of the merge do govern the call; but the
instance values of `ttr`, `ttl` and `setFilter` are always the hard-coded
defaults regardless of what the constructor was given (only `gzip`
survives construction), and compression of a write is governed solely by
the instance-level `gzip`: `_set` is insensitive to the per-call `gzip`
option. -/
theorem c3_options (c : CtorOpts) (inst : InstOpts) (callO : CallOpts)
    (env : Env) (ns id : Option Bytes) (w : Option Val) (g : Option GzipOpt) (v : Val) :
    (mkOptions c).ttr = 7200 * 1000
    ∧ (mkOptions c).ttl = 60 * 24 * 60 * 60 * 1000
    ∧ applyFilter (mkOptions c).setFilter v = true
    ∧ (mkOptions c).gzip = c.gzip.getD .gother
    ∧ mergeOpts inst callO =
        ⟨callO.ttr.getD inst.ttr, callO.ttl.getD inst.ttl, callO.gzip.getD inst.gzip,
         callO.setFilter.getD inst.setFilter, callO.refresh⟩
    ∧ _set inst { callO with gzip := g } env ns id w = _set inst callO env ns id w := by
  exact ⟨rfl, rfl, rfl, rfl, rfl, rfl⟩

/-- Claim C8, counterexample: in the newest variant a `get` whose args
lack `id` is NOT rejected — with a valid namespace and source the call
proceeds, performs the storage read (one adapter `get`), and on the miss
invokes the source and writes a record with an absent `id`. -/
theorem c8_counterexample :
    CacheDriver.get inst0 {} ⟨1000, .aempty, true, .val freshV⟩ ns0 none true
      = ⟨.val freshV,
         [{ nspace := ns0, rid := none, value := some (.vstr (jsonStringify freshV)),
            createdAt := some 1000, rttl := some ((1000 + 60 * 24 * 60 * 60 * 1000) / 1000) }],
         1, 1⟩
    ∧ (CacheDriver.get inst0 {} ⟨1000, .aempty, true, .val freshV⟩ ns0 none true).getCalls ≠ 0 := by
  decide

/-- Claim C8 (amended): a `get` whose args lack `namespace`, or whose
source argument is not a function, fails immediately with the
corresponding validation error and performs no storage operation and no
source call; the key-based variants 1 and 2 additionally validate `key`
the same way, but the newest variant does not validate `id` at all. -/
theorem c8_validation (inst : InstOpts) (callO : CallOpts) (env : Env)
    (id ns : Option Bytes) (hasSource : Bool)
    (v1i : V1Opts) (v1c : V1CallOpts) (v1e : V1Env)
    (b : Bool) (t : Nat) (v2e : V2Env) (hns : ns.isNone = false) :
    CacheDriver.get inst callO env none id hasSource = ⟨.err .noNamespace, [], 0, 0⟩
    ∧ CacheDriver.get inst callO env ns id false = ⟨.err .noSource, [], 0, 0⟩
    ∧ v1get v1i v1c v1e none id true = ⟨.err .noNamespace, 0, [], 0, [], 0⟩
    ∧ v1get v1i v1c v1e ns none true = ⟨.err .noKey, 0, [], 0, [], 0⟩
    ∧ v2get b t v2e none id true = ⟨.err .noNamespace, 0, [], 0, [], 0⟩
    ∧ v2get b t v2e ns none true = ⟨.err .noKey, 0, [], 0, [], 0⟩ := by
  refine ⟨rfl, ?_, rfl, ?_, rfl, ?_⟩
  · simp [CacheDriver.get, hns]
  · simp [v1get, hns]
  · simp [v2get, hns]

/-- Claim C8, witness: the validation theorem applied at concrete
arguments — a non-function source is rejected with no storage call, and
variants 1 and 2 reject a missing key. -/
theorem c8_witness :
    CacheDriver.get inst0 {} ⟨1000, .aempty, true, .val freshV⟩ ns0 id0 false
      = ⟨.err .noSource, [], 0, 0⟩
    ∧ v1get (v1mkOptions none) {} ⟨1000, .aempty, .val freshV⟩ ns0 none true
      = ⟨.err .noKey, 0, [], 0, [], 0⟩
    ∧ v2get true 7200 ⟨1000, .aempty, .val freshV⟩ ns0 none true
      = ⟨.err .noKey, 0, [], 0, [], 0⟩ :=
  have h := c8_validation inst0 {} ⟨1000, .aempty, true, .val freshV⟩ id0 ns0 false
    (v1mkOptions none) {} ⟨1000, .aempty, .val freshV⟩ true 7200
    ⟨1000, .aempty, .val freshV⟩ (by decide)
  ⟨h.2.1, h.2.2.2.1, h.2.2.2.2.2⟩

theorem sourceAndSet_filter_false (inst : InstOpts) (o : MergedOpts) (env : Env)
    (ns id : Option Bytes) (v : Val) (hsrc : env.src = .val v)
    (hf : applyFilter o.setFilter v = false) :
    sourceAndSet inst o env ns id = (.val v, []) := by
  simp [sourceAndSet, hsrc, hf]

theorem sourceAndSet_write_ok (inst : InstOpts) (o : MergedOpts) (env : Env)
    (ns id : Option Bytes) (v : Val) (hns : ns.isNone = false) (hsrc : env.src = .val v)
    (hf : applyFilter o.setFilter v = true) (ht : truthy v = true) (ha : env.asetOk = true) :
    sourceAndSet inst o env ns id =
      (.val v, [{ nspace := ns, rid := id, value := some (setPayload inst v),
                  createdAt := some env.now,
                  rttl := some ((env.now + o.ttl) / 1000) }]) := by
  have hset := _set_truthy_eq inst (toCallOpts o) env ns id v hns ht
  simp only [sourceAndSet, hsrc, hf, if_true]
  rw [hset, ha]
  simp [mergeOpts, toCallOpts]

theorem sourceAndSet_write_fail (inst : InstOpts) (o : MergedOpts) (env : Env)
    (ns id : Option Bytes) (v : Val) (hns : ns.isNone = false) (hsrc : env.src = .val v)
    (hf : applyFilter o.setFilter v = true) (ht : truthy v = true) (ha : env.asetOk = false) :
    (sourceAndSet inst o env ns id).1 = .err .adapterSetFail := by
  have hset := _set_truthy_eq inst (toCallOpts o) env ns id v hns ht
  simp only [sourceAndSet, hsrc, hf, if_true]
  rw [hset, ha]
  simp

theorem sourceAndSet_falsy (inst : InstOpts) (o : MergedOpts) (env : Env)
    (ns id : Option Bytes) (v : Val) (hns : ns.isNone = false) (hsrc : env.src = .val v)
    (hf : applyFilter o.setFilter v = true) (ht : truthy v = false) :
    sourceAndSet inst o env ns id = (.emp, []) := by
  simp [sourceAndSet, hsrc, hf, _set, hns, ht]

theorem _get_wellformed (env : Env) (ns id : Option Bytes) (r : Rec) (v : Val)
    (hns : ns.isNone = false) (ha : env.aget = .asome r)
    (hv : r.value = some (.vstr (jsonStringify v))) :
    _get env ns id = .val { r with value := some v } := by
  simp [_get, hns, ha, _gunzipRec, hv, _gunzip, truthy_jsonStringify, jsonParseVal,
    jsonParse_jsonStringify]

/-- Claim C1, counterexample: in the newest variant a stale hit does NOT
emit the existing cached value with a detached background refresh — `get`
returns `sourceAndSet(args)` synchronously, so the very caller waits on
the source and write and receives the fresh source value, not the cached
one.  Here the stored record (cached value, createdAt = now) is read with
a per-call `ttr` of `0`, and the call emits the source's value. -/
theorem c1_counterexample :
    CacheDriver.get inst0 { ttr := some 0 }
      ⟨1000, .asome { nspace := ns0, rid := id0,
                      value := some (.vstr (jsonStringify cachedV)),
                      createdAt := some 1000 }, true, .val freshV⟩ ns0 id0 true
      = ⟨.val freshV,
         [{ nspace := ns0, rid := id0, value := some (.vstr (jsonStringify freshV)),
            createdAt := some 1000, rttl := some ((1000 + 60 * 24 * 60 * 60 * 1000) / 1000) }],
         1, 1⟩
    ∧ (CacheDriver.get inst0 { ttr := some 0 }
        ⟨1000, .asome { nspace := ns0, rid := id0,
                        value := some (.vstr (jsonStringify cachedV)),
                        createdAt := some 1000 }, true, .val freshV⟩ ns0 id0 true).result
      ≠ .val cachedV := by
  decide

/-- Claim C1 (amended): on a hit with a truthy stored value, a fresh hit
(`now - createdAt < ttr`) emits the cached value with no source call in
all three variants; on a stale hit (`now - createdAt >= ttr`) the two
key-based variants emit the existing cached value to the current caller
while exactly one detached background source invocation happens, together
with its write attempt (one write when the fetched value is truthy); the
newest variant instead runs `sourceAndSet` in the FOREGROUND on a stale
hit: the caller waits and receives the source's value, with the one
source invocation and one write attempt happening before `get` emits. -/
theorem c1_stale_behavior :
    (∀ (inst : V1Opts) (callO : V1CallOpts) (env : V1Env) (ns key : Option Bytes)
       (r : Rec) (cv fv : Val),
      ns.isNone = false → key.isNone = false →
      env.aget = .asome r → r.value = some cv → truthy cv = true →
      env.fallback = .val fv → (v1merge inst callO).forceRefresh = false →
      ((v1merge inst callO).ttr : Int) * 1000 ≤ (env.now : Int) - (r.createdAt.getD 0 : Nat) →
      v1get inst callO env ns key true = ⟨.val cv, 0, [], 1, v1setTrace env ns key fv, 1⟩)
    ∧ (∀ (inst : V1Opts) (callO : V1CallOpts) (env : V1Env) (ns key : Option Bytes)
         (r : Rec) (cv : Val),
      ns.isNone = false → key.isNone = false →
      env.aget = .asome r → r.value = some cv → truthy cv = true →
      (v1merge inst callO).forceRefresh = false →
      (env.now : Int) - (r.createdAt.getD 0 : Nat) < ((v1merge inst callO).ttr : Int) * 1000 →
      v1get inst callO env ns key true = ⟨.val cv, 0, [], 0, [], 1⟩)
    ∧ (∀ (b : Bool) (t : Nat) (env : V2Env) (ns key : Option Bytes)
         (r : Rec) (cv fv : Val),
      ns.isNone = false → key.isNone = false →
      env.aget = .asome r → r.value = some cv → truthy cv = true →
      env.fallback = .val fv →
      (t : Int) * 1000 ≤ (env.now : Int) - (r.createdAt.getD 0 : Nat) →
      v2get b t env ns key true = ⟨.val cv, 0, [], 1, v2setTrace env ns key fv, 0⟩)
    ∧ (∀ (b : Bool) (t : Nat) (env : V2Env) (ns key : Option Bytes)
         (r : Rec) (cv : Val),
      ns.isNone = false → key.isNone = false →
      env.aget = .asome r → r.value = some cv → truthy cv = true →
      (env.now : Int) - (r.createdAt.getD 0 : Nat) < (t : Int) * 1000 →
      v2get b t env ns key true = ⟨.val cv, 0, [], 0, [], 0⟩)
    ∧ (∀ (inst : InstOpts) (callO : CallOpts) (env : Env) (ns id : Option Bytes)
         (r : Rec) (cv fv : Val),
      ns.isNone = false → env.aget = .asome r →
      r.value = some (.vstr (jsonStringify cv)) → truthy cv = true →
      env.src = .val fv → applyFilter (mergeOpts inst callO).setFilter fv = true →
      truthy fv = true → env.asetOk = true → (mergeOpts inst callO).refresh = false →
      ((mergeOpts inst callO).ttr : Int) ≤ (env.now : Int) - (r.createdAt.getD 0 : Nat) →
      CacheDriver.get inst callO env ns id true =
        ⟨.val fv,
         [{ nspace := ns, rid := id, value := some (setPayload inst fv),
            createdAt := some env.now,
            rttl := some ((env.now + (mergeOpts inst callO).ttl) / 1000) }], 1, 1⟩)
    ∧ (∀ (inst : InstOpts) (callO : CallOpts) (env : Env) (ns id : Option Bytes)
         (r : Rec) (cv : Val),
      ns.isNone = false → env.aget = .asome r →
      r.value = some (.vstr (jsonStringify cv)) → truthy cv = true →
      (mergeOpts inst callO).refresh = false →
      (env.now : Int) - (r.createdAt.getD 0 : Nat) < ((mergeOpts inst callO).ttr : Int) →
      CacheDriver.get inst callO env ns id true = ⟨.val cv, [], 0, 1⟩) := by
  refine ⟨?_, ?_, ?_, ?_, ?_, ?_⟩
  · intro inst callO env ns key r cv fv hns hkey ha hv htv hf hforce hexp
    simp [v1get, hns, hkey, hforce, v1_get, ha, hv, htv, v1fallbackAndSet, hf, hexp]
  · intro inst callO env ns key r cv hns hkey ha hv htv hforce hfresh
    simp [v1get, hns, hkey, hforce, v1_get, ha, hv, htv, not_le.mpr hfresh]
  · intro b t env ns key r cv fv hns hkey ha hv htv hf hexp
    simp [v2get, hns, hkey, v2_get, ha, hv, htv, hf, hexp]
  · intro b t env ns key r cv hns hkey ha hv htv hfresh
    simp [v2get, hns, hkey, v2_get, ha, hv, htv, not_le.mpr hfresh]
  · intro inst callO env ns id r cv fv hns ha hv htv hsrc hfil htfv haset hrefresh hexp
    have hg := _get_wellformed env ns id r cv hns ha hv
    have hw := sourceAndSet_write_ok inst (mergeOpts inst callO) env ns id fv hns hsrc
      hfil htfv haset
    simp [CacheDriver.get, hns, hrefresh, hg, htv, hexp, hw]
  · intro inst callO env ns id r cv hns ha hv htv hrefresh hfresh
    have hg := _get_wellformed env ns id r cv hns ha hv
    simp [CacheDriver.get, hns, hrefresh, hg, htv, not_le.mpr hfresh]

/-- Claim C1, witness: the amended theorem applied at concrete inputs —
variants 1 and 2 emit the cached value on a stale hit with exactly one
background source call and one write attempt, and on a fresh hit emit it
with no source call; the newest variant emits the source's value on a
stale hit and the cached value on a fresh hit. -/
theorem c1_witness :
    v1get (v1mkOptions none) { ttr := some 0 }
      ⟨1000, .asome { nspace := ns0, rid := id0, value := some cachedV,
                      createdAt := some 1000 }, .val freshV⟩ ns0 id0 true
      = ⟨.val cachedV, 0, [], 1,
         v1setTrace ⟨1000, .asome { nspace := ns0, rid := id0, value := some cachedV,
                                    createdAt := some 1000 }, .val freshV⟩ ns0 id0 freshV, 1⟩
    ∧ v1get (v1mkOptions none) {}
        ⟨1000, .asome { nspace := ns0, rid := id0, value := some cachedV,
                        createdAt := some 1000 }, .val freshV⟩ ns0 id0 true
      = ⟨.val cachedV, 0, [], 0, [], 1⟩
    ∧ v2get true 0
        ⟨1000, .asome { nspace := ns0, rid := id0, value := some cachedV,
                        createdAt := some 1000 }, .val freshV⟩ ns0 id0 true
      = ⟨.val cachedV, 0, [], 1,
         v2setTrace ⟨1000, .asome { nspace := ns0, rid := id0, value := some cachedV,
                                    createdAt := some 1000 }, .val freshV⟩ ns0 id0 freshV, 0⟩
    ∧ v2get true 7200
        ⟨1000, .asome { nspace := ns0, rid := id0, value := some cachedV,
                        createdAt := some 1000 }, .val freshV⟩ ns0 id0 true
      = ⟨.val cachedV, 0, [], 0, [], 0⟩
    ∧ (CacheDriver.get inst0 { ttr := some 0 }
        ⟨1000, .asome { nspace := ns0, rid := id0,
                        value := some (.vstr (jsonStringify cachedV)),
                        createdAt := some 1000 }, true, .val freshV⟩ ns0 id0 true).result
      = .val freshV
    ∧ CacheDriver.get inst0 {}
        ⟨1000, .asome { nspace := ns0, rid := id0,
                        value := some (.vstr (jsonStringify cachedV)),
                        createdAt := some 1000 }, true, .val freshV⟩ ns0 id0 true
      = ⟨.val cachedV, [], 0, 1⟩ := by
  refine ⟨?_, ?_, ?_, ?_, ?_, ?_⟩
  · exact c1_stale_behavior.1 (v1mkOptions none) { ttr := some 0 } _ ns0 id0 _ cachedV freshV
      (by decide) (by decide) rfl rfl (by decide) rfl rfl (by decide)
  · exact c1_stale_behavior.2.1 (v1mkOptions none) {} _ ns0 id0 _ cachedV
      (by decide) (by decide) rfl rfl (by decide) rfl (by decide)
  · exact c1_stale_behavior.2.2.1 true 0 _ ns0 id0 _ cachedV freshV
      (by decide) (by decide) rfl rfl (by decide) rfl (by decide)
  · exact c1_stale_behavior.2.2.2.1 true 7200 _ ns0 id0 _ cachedV
      (by decide) (by decide) rfl rfl (by decide) (by decide)
  · rw [c1_stale_behavior.2.2.2.2.1 inst0 { ttr := some 0 } _ ns0 id0 _ cachedV freshV
      (by decide) rfl rfl (by decide) rfl (by decide) (by decide) rfl rfl (by decide)]
  · exact c1_stale_behavior.2.2.2.2.2 inst0 {} _ ns0 id0 _ cachedV
      (by decide) rfl rfl (by decide) rfl (by decide)

/-- Claim C6, counterexample: the source's value is NOT propagated
regardless of the write-through outcome — when the adapter's `set` fails,
`get` errors instead of emitting the source's value (the write attempt is
observed, but the caller receives the error). -/
theorem c6_counterexample :
    CacheDriver.get inst0 {} ⟨1000, .aempty, false, .val freshV⟩ ns0 id0 true
      = ⟨.err .adapterSetFail,
         [{ nspace := ns0, rid := id0, value := some (.vstr (jsonStringify freshV)),
            createdAt := some 1000, rttl := some ((1000 + 60 * 24 * 60 * 60 * 1000) / 1000) }],
         1, 1⟩
    ∧ (CacheDriver.get inst0 {} ⟨1000, .aempty, false, .val freshV⟩ ns0 id0 true).result
      ≠ .val freshV := by
  decide

/-- Claim C6 (amended): on a miss, the value emitted by the source is
propagated to the caller when `setFilter` rejects it (and then no storage
write is attempted at all) and when the write-through succeeds; but a
failed write-through propagates the adapter error to the caller instead of
the value, and a falsy source value makes the call complete empty (the
empty `_set` is `mapTo`-ed over), so the value is not propagated in those
cases. -/
theorem c6_source_propagation (inst : InstOpts) (callO : CallOpts) (env : Env)
    (ns id : Option Bytes) (v : Val)
    (hns : ns.isNone = false) (hmiss : env.aget = .aempty) (hsrc : env.src = .val v)
    (hrefresh : callO.refresh = false) :
    (applyFilter (mergeOpts inst callO).setFilter v = false →
      CacheDriver.get inst callO env ns id true = ⟨.val v, [], 1, 1⟩)
    ∧ (applyFilter (mergeOpts inst callO).setFilter v = true → truthy v = true →
        env.asetOk = true →
        CacheDriver.get inst callO env ns id true =
          ⟨.val v,
           [{ nspace := ns, rid := id, value := some (setPayload inst v),
              createdAt := some env.now,
              rttl := some ((env.now + (mergeOpts inst callO).ttl) / 1000) }], 1, 1⟩)
    ∧ (applyFilter (mergeOpts inst callO).setFilter v = true → truthy v = true →
        env.asetOk = false →
        (CacheDriver.get inst callO env ns id true).result = .err .adapterSetFail)
    ∧ (applyFilter (mergeOpts inst callO).setFilter v = true → truthy v = false →
        CacheDriver.get inst callO env ns id true = ⟨.emp, [], 1, 1⟩) := by
  have hrefresh2 : (mergeOpts inst callO).refresh = false := hrefresh
  refine ⟨?_, ?_, ?_, ?_⟩
  · intro hf
    have hs := sourceAndSet_filter_false inst (mergeOpts inst callO) env ns id v hsrc hf
    simp [CacheDriver.get, hns, hrefresh2, _get, hmiss, hs]
  · intro hf ht ha
    have hs := sourceAndSet_write_ok inst (mergeOpts inst callO) env ns id v hns hsrc hf ht ha
    simp [CacheDriver.get, hns, hrefresh2, _get, hmiss, hs]
  · intro hf ht ha
    have hs := sourceAndSet_write_fail inst (mergeOpts inst callO) env ns id v hns hsrc hf ht ha
    simp [CacheDriver.get, hns, hrefresh2, _get, hmiss, hs]
  · intro hf ht
    have hs := sourceAndSet_falsy inst (mergeOpts inst callO) env ns id v hns hsrc hf ht
    simp [CacheDriver.get, hns, hrefresh2, _get, hmiss, hs]

/-- Claim C6, witness: the amended theorem applied at concrete inputs —
with `setFilter = v => v !== skip` and a source returning `skip`, `get`
emits `skip` and no write is attempted; with the default filter and a
succeeding adapter the source value is emitted and written through. -/
theorem c6_witness :
    CacheDriver.get inst0 { setFilter := some (.fn (fun w => w != Val.vstr [9])) }
      ⟨1000, .aempty, true, .val (.vstr [9])⟩ ns0 id0 true
      = ⟨.val (.vstr [9]), [], 1, 1⟩
    ∧ CacheDriver.get inst0 {} ⟨1000, .aempty, true, .val freshV⟩ ns0 id0 true
      = ⟨.val freshV,
         [{ nspace := ns0, rid := id0, value := some (setPayload inst0 freshV),
            createdAt := some 1000,
            rttl := some ((1000 + (mergeOpts inst0 {}).ttl) / 1000) }], 1, 1⟩ :=
  ⟨(c6_source_propagation inst0 { setFilter := some (.fn (fun w => w != Val.vstr [9])) }
      ⟨1000, .aempty, true, .val (.vstr [9])⟩ ns0 id0 (.vstr [9])
      (by decide) rfl rfl rfl).1 (by decide),
   (c6_source_propagation inst0 {} ⟨1000, .aempty, true, .val freshV⟩ ns0 id0 freshV
      (by decide) rfl rfl rfl).2.1 (by decide) (by decide) rfl⟩

/-- Shared stored record for the markToRefresh scenarios. -/
def r7 : Rec :=
  { nspace := ns0, rid := id0, value := some (.vstr (jsonStringify cachedV)),
    createdAt := some 999 }

/-- Claim C7, counterexample: `markToRefresh` does reset `createdAt` to 0,
but the consequence claimed "for any ttr >= 0 and any current time" fails:
with a per-call `ttr` of 2000 and a clock value of 1000, the staleness
test `now - 0 >= ttr` is false, so the next `get` serves the cached value
and invokes no source. -/
theorem c7_counterexample :
    markToRefresh ⟨1000, .asome r7, true, .emp⟩ ns0 id0
      = (.val (), [{ r7 with createdAt := some 0 }])
    ∧ CacheDriver.get inst0 { ttr := some 2000 }
        ⟨1000, .asome { r7 with createdAt := some 0 }, true, .val freshV⟩ ns0 id0 true
      = ⟨.val cachedV, [], 0, 1⟩ := by
  decide

/-- Claim C7 (amended): `markToRefresh` on an existing record resets its
`createdAt` to 0 and writes it back with every other field unchanged; the
next `get` for the key then evaluates the record as stale and performs a
new source invocation whenever the effective `ttr` does not exceed the
clock value `now` (guaranteed for any realistic epoch-milliseconds clock
and `ttr`, but not for literally arbitrary `ttr` and `now`). -/
theorem c7_markToRefresh (env env2 : Env) (inst : InstOpts) (callO : CallOpts)
    (r : Rec) (v : Val) (ns id : Option Bytes)
    (hns : ns.isNone = false)
    (hget : env.aget = .asome r) (hset : env.asetOk = true)
    (hv : r.value = some (.vstr (jsonStringify v)))
    (hget2 : env2.aget = .asome { r with createdAt := some 0 })
    (httr : (mergeOpts inst callO).ttr ≤ env2.now)
    (hrefresh : (mergeOpts inst callO).refresh = false) :
    markToRefresh env ns id = (.val (), [{ r with createdAt := some 0 }])
    ∧ (CacheDriver.get inst callO env2 ns id true).srcCalls = 1 := by
  constructor
  · simp [markToRefresh, hns, hget, hset]
  · have hg := _get_wellformed env2 ns id { r with createdAt := some 0 } v hns hget2
      (by simpa using hv)
    cases htv : truthy v with
    | true => simp [CacheDriver.get, hns, hrefresh, hg, htv, httr]
    | false => simp [CacheDriver.get, hns, hrefresh, hg, htv]

/-- Claim C7, witness: the amended theorem applied at a concrete stored
record, clock 1000 and per-call `ttr` 500: the record is written back with
`createdAt` 0 and the following `get` performs one source invocation. -/
theorem c7_witness :
    markToRefresh ⟨1000, .asome r7, true, .emp⟩ ns0 id0
      = (.val (), [{ r7 with createdAt := some 0 }])
    ∧ (CacheDriver.get inst0 { ttr := some 500 }
        ⟨1000, .asome { r7 with createdAt := some 0 }, true, .val freshV⟩ ns0 id0 true).srcCalls
      = 1 :=
  have h := c7_markToRefresh ⟨1000, .asome r7, true, .emp⟩
    ⟨1000, .asome { r7 with createdAt := some 0 }, true, .val freshV⟩
    inst0 { ttr := some 500 } r7 cachedV ns0 id0
    (by decide) rfl rfl rfl rfl (by decide) rfl
  ⟨h.1, h.2⟩
